import Mathlib

/-!
A shallow embedding, in Lean 4, of the campaign-launcher repository
(two parallel Python implementations: `python_campaign_launcher` and
`python-campaign-launcher`), together with theorems settling the
specification claims about the template catalog, the script composer and
its free-text response parser, the social publishers and the
multi-platform publish task, the campaign workflow's failure handling
and the regenerate endpoint.

Python side effects are made explicit: database rows are records, the
current clock is a `Nat` parameter, `random.*` calls are index
parameters, fallible operations return `Option`/`Except`, and network
clients are booleans recording whether the client object is configured.
Async semantics are taken literally: an `async def` body is a function
of its own, but calling one *without* `await` from synchronous code
yields a coroutine object, not the body's result, and that distinction
is part of the embedding where the source makes that mistake.
-/

namespace CampaignLauncher

/-! ## Template catalog (`python_campaign_launcher/src/core/templates.py`,
`src/models/campaign.py`) -/

/-- `CampaignTemplate` from `src/models/campaign.py`. -/
structure CampaignTemplate where
  key : String
  display : String
  style_primary : String
  style_secondary : String
  has_affiliate : Bool
  keywords : List String
  sources_rss : List String
  affiliate_url_env : Option String := none
  deriving Repr, DecidableEq

/-- `CampaignTemplateLoader._get_default_templates`: the hard-coded fallback
template set. -/
def defaultTemplates : List CampaignTemplate :=
  [ { key := "mnp"
      display := "MNP/携帯乗換"
      style_primary := "serious"
      style_secondary := "kawaii"
      has_affiliate := true
      keywords := ["mnp", "乗り換え", "スマホ", "端末割引", "ポイント還元"]
      sources_rss := ["https://news.yahoo.co.jp/rss/topics/it.xml"]
      affiliate_url_env := some "AFFILIATE_MNP_URL" }
  , { key := "anime"
      display := "アニメ/エンタメ"
      style_primary := "kawaii"
      style_secondary := "fun"
      has_affiliate := true
      keywords := ["アニメ", "声優", "映画化", "コラボ"]
      sources_rss := ["https://news.yahoo.co.jp/rss/topics/entertainment.xml"]
      affiliate_url_env := some "AFFILIATE_ANIME_URL" }
  , { key := "tech"
      display := "テック/ガジェット"
      style_primary := "tech"
      style_secondary := "serious"
      has_affiliate := false
      keywords := ["発表", "発売", "比較", "性能", "レビュー", "新製品"]
      sources_rss := ["https://news.yahoo.co.jp/rss/topics/it.xml"] } ]

/-- `CampaignTemplateLoader.load_templates`: the YAML read either yields a
parsed stream list (`some ts`) or fails (file missing or malformed,
`none`), in which case the hard-coded fallback set is returned. -/
def loadTemplates (fileData : Option (List CampaignTemplate)) :
    List CampaignTemplate :=
  match fileData with
  | some ts => ts
  | none => defaultTemplates

/-- `CampaignTemplateLoader.get_template_by_key`: linear scan of the loaded
list; raises `ValueError` (`.error`) when no template has the key. -/
def getTemplateByKey (fileData : Option (List CampaignTemplate))
    (key : String) : Except String CampaignTemplate :=
  match (loadTemplates fileData).find? (fun t => t.key == key) with
  | some t => .ok t
  | none => .error ("Template with key '" ++ key ++ "' not found")

theorem template_lookup_ok_iff (fileData : Option (List CampaignTemplate))
    (key : String) :
    (∃ t, getTemplateByKey fileData key = .ok t) ↔
      key ∈ (loadTemplates fileData).map (·.key) := by
  constructor
  · rintro ⟨t, ht⟩
    unfold getTemplateByKey at ht
    cases hf : (loadTemplates fileData).find? (fun t => t.key == key) with
    | none => rw [hf] at ht; exact absurd ht (by simp)
    | some u =>
      rw [hf] at ht
      have hpred := List.find?_some hf
      have hmem : u ∈ loadTemplates fileData := List.mem_of_find?_eq_some hf
      exact List.mem_map.mpr ⟨u, hmem, by simpa using hpred⟩
  · intro hmem
    obtain ⟨t, htl, hk⟩ := List.mem_map.mp hmem
    have hsome : ((loadTemplates fileData).find?
        (fun t => t.key == key)).isSome := by
      rw [List.find?_isSome]
      exact ⟨t, htl, by simpa using hk⟩
    obtain ⟨u, hu⟩ := Option.isSome_iff_exists.mp hsome
    exact ⟨u, by unfold getTemplateByKey; rw [hu]⟩

theorem template_lookup_fails_iff (fileData : Option (List CampaignTemplate))
    (key : String) :
    (∃ e, getTemplateByKey fileData key = .error e) ↔
      key ∉ (loadTemplates fileData).map (·.key) := by
  have h := template_lookup_ok_iff fileData key
  constructor
  · rintro ⟨e, he⟩ hmem
    obtain ⟨t, ht⟩ := h.mpr hmem
    rw [ht] at he
    exact absurd he (by simp)
  · intro hmem
    cases hv : getTemplateByKey fileData key with
    | ok t => exact absurd (h.mp ⟨t, hv⟩) hmem
    | error e => exact ⟨e, rfl⟩

/-- **C4.** Template lookup by key fails with `NotFound` (a `ValueError`,
surfaced as HTTP 404) exactly for the keys not present in the active
template set (the loaded set, or the fallback set when loading fails), and
succeeds for every key of the fallback set; the fallback set contains a
template with key `"tech"`, display `"テック/ガジェット"` and primary style
`"tech"`, and has at least three templates. -/
theorem templateLookup_notFound_and_fallback_complete :
    (∀ fileData key, (∃ e, getTemplateByKey fileData key = .error e) ↔
        key ∉ (loadTemplates fileData).map (·.key)) ∧
    (∀ key, key ∈ defaultTemplates.map (·.key) →
        ∃ t, getTemplateByKey none key = .ok t) ∧
    (∃ t, getTemplateByKey none "tech" = .ok t ∧
        t.display = "テック/ガジェット" ∧ t.style_primary = "tech") ∧
    3 ≤ defaultTemplates.length := by
  refine ⟨template_lookup_fails_iff, ?_, ?_, by decide⟩
  · intro key hmem
    exact (template_lookup_ok_iff none key).mpr (by simpa using hmem)
  · exact ⟨defaultTemplates[2], rfl, rfl, rfl⟩

/-- Witness for C4: the hypothesis-bearing parts instantiated concretely.
Lookup of the absent key `"nonexistent"` against the fallback set fails,
and lookup of the fallback key `"mnp"` succeeds. -/
theorem templateLookup_notFound_and_fallback_complete_witness :
    (∃ e, getTemplateByKey none "nonexistent" = .error e) ∧
    (∃ t, getTemplateByKey none "mnp" = .ok t) := by
  refine ⟨?_, ?_⟩
  · exact (templateLookup_notFound_and_fallback_complete.1 none
      "nonexistent").mpr (by decide)
  · exact templateLookup_notFound_and_fallback_complete.2.1 "mnp" (by decide)

/-! ## Python string primitives

The script composer works on free text, so the handful of `str` methods it
uses are embedded here as character-list functions: `strip`, `split()`
(whitespace split, dropping empty fields), `split(sep, 1)[1]`, `in`
(substring containment), `startswith`, `lower`. -/

/-- The whitespace characters stripped/split on by Python's `str.strip()`
and `str.split()` (ASCII subset). -/
def pyIsSpace (c : Char) : Bool :=
  c == ' ' || c == '\t' || c == '\n' || c == '\r' ||
    c == '\x0b' || c == '\x0c'

/-- Leading-whitespace removal. -/
def dropSpaces (l : List Char) : List Char :=
  l.dropWhile pyIsSpace

/-- Python `str.strip()`: remove leading and trailing whitespace. -/
def stripL (l : List Char) : List Char :=
  (dropSpaces (dropSpaces l).reverse).reverse

/-- `s.startswith(pre)` on character lists. -/
def startsWithL : List Char → List Char → Bool
  | _, [] => true
  | [], _ :: _ => false
  | c :: s, p :: ps => c == p && startsWithL s ps

/-- Python `pat in s`: substring containment. -/
def containsL : List Char → List Char → Bool
  | s, pat =>
    startsWithL s pat ||
      match s with
      | [] => false
      | _ :: t => containsL t pat

/-- Python `s.lower()` (character-wise). -/
def lowerL (l : List Char) : List Char :=
  l.map Char.toLower

/-- Python `s.split(sep, 1)[1]`: everything after the first occurrence of
the (single-character) separator.  Callers guard with `sep in s`. -/
def afterFirst (sep : Char) : List Char → List Char
  | [] => []
  | c :: t => if c == sep then t else afterFirst sep t

/-- Python `s.split(sep)` for a single-character separator: consecutive
separators produce empty fields. -/
def splitOnCharL (sep : Char) : List Char → List (List Char)
  | [] => [[]]
  | c :: t =>
    let rest := splitOnCharL sep t
    if c == sep then [] :: rest
    else
      match rest with
      | [] => [[c]]
      | r :: rs => (c :: r) :: rs

/-- Helper for `wsSplit`: `acc` holds the current word, reversed. -/
def wsSplitAux : List Char → List Char → List (List Char)
  | [], acc => if acc.isEmpty then [] else [acc.reverse]
  | c :: rest, acc =>
    if pyIsSpace c then
      if acc.isEmpty then wsSplitAux rest []
      else acc.reverse :: wsSplitAux rest []
    else wsSplitAux rest (c :: acc)

/-- Python `s.split()` with no argument: split on whitespace runs, dropping
empty fields. -/
def wsSplit (l : List Char) : List (List Char) :=
  wsSplitAux l []

theorem wsSplitAux_no_space (l : List Char) :
    ∀ acc, (∀ c ∈ acc, pyIsSpace c = false) →
      ∀ t ∈ wsSplitAux l acc, ∀ c ∈ t, pyIsSpace c = false := by
  induction l with
  | nil =>
    intro acc hacc t ht c hc
    unfold wsSplitAux at ht
    by_cases h : acc.isEmpty
    · simp [h] at ht
    · simp [h] at ht
      subst ht
      exact hacc c (by simpa using hc)
  | cons x xs ih =>
    intro acc hacc t ht c hc
    unfold wsSplitAux at ht
    by_cases hx : pyIsSpace x
    · by_cases h : acc.isEmpty
      · simp [hx, h] at ht
        exact ih [] (by simp) t ht c hc
      · simp [hx, h] at ht
        rcases ht with ht | ht
        · subst ht
          exact hacc c (by simpa using hc)
        · exact ih [] (by simp) t ht c hc
    · simp [hx] at ht
      refine ih (x :: acc) ?_ t ht c hc
      intro d hd
      rcases List.mem_cons.mp hd with hd | hd
      · subst hd; simpa using hx
      · exact hacc d hd

theorem dropSpaces_of_no_space (l : List Char)
    (h : ∀ c ∈ l, pyIsSpace c = false) : dropSpaces l = l := by
  cases l with
  | nil => rfl
  | cons c t =>
    unfold dropSpaces
    rw [List.dropWhile_cons_of_neg]
    simp [h c (List.mem_cons_self c t)]

theorem stripL_of_no_space (l : List Char)
    (h : ∀ c ∈ l, pyIsSpace c = false) : stripL l = l := by
  unfold stripL
  rw [dropSpaces_of_no_space l h,
    dropSpaces_of_no_space l.reverse (fun c hc => h c (by simpa using hc)),
    List.reverse_reverse]

/-! ## Script composer
(`python_campaign_launcher/src/services/content_generator.py`) -/

/-- The structured script dictionary produced by
`GeminiContentGenerator._parse_script_response` and
`_generate_mock_script`: all seven keys are always present. -/
structure Script where
  hook : String
  bullets : List String
  twist : String
  cta : String
  hashtags : List String
  style : String
  estimated_duration : Nat
  deriving Repr, DecidableEq

/-- The `current_section` variable of `_parse_script_response`. -/
inductive ParseSection where
  | start
  | hook
  | bullets
  | twist
  | cta
  deriving Repr, DecidableEq

/-- Loop state of `_parse_script_response`: the section marker plus the
script dictionary being filled in. -/
structure ParseState where
  sec : ParseSection
  script : Script
  deriving Repr, DecidableEq

/-- The bullet-line extraction
`line.split('.', 1)[1].strip() if '.' in line else line[1:].strip()`. -/
def bulletText (line : List Char) : List Char :=
  if containsL line ['.'] then stripL (afterFirst '.' line)
  else stripL (line.drop 1)

/-- Which branch of the `elif` chain of `_parse_script_response` a
(stripped) line takes.  The first six branches test only the line itself;
`plain` is the fall-through to the section-continuation branches. -/
inductive LineAction where
  | skip
  | hookLine (v : Option (List Char))
  | bulletsHeader
  | twistLine (v : Option (List Char))
  | ctaLine (v : Option (List Char))
  | hashtagLine (toks : List (List Char))
  | plain (line : List Char)
  deriving Repr, DecidableEq

/-- The `if ':' in line: field = line.split(':', 1)[1].strip()` pattern. -/
def colonValue (line : List Char) : Option (List Char) :=
  if containsL line [':'] then some (stripL (afterFirst ':' line)) else none

/-- The `elif` chain of `_parse_script_response`, in source order. -/
def classifyLine (line : List Char) : LineAction :=
  if line.isEmpty then .skip
  else if containsL line "フック".data ||
      containsL (lowerL line) "hook".data then
    .hookLine (colonValue line)
  else if containsL line "メインコンテンツ".data ||
      containsL line "ポイント".data then
    .bulletsHeader
  else if containsL line "ツイスト".data ||
      containsL (lowerL line) "twist".data then
    .twistLine (colonValue line)
  else if containsL line "CTA".data || containsL line "行動喚起".data then
    .ctaLine (colonValue line)
  else if containsL line "ハッシュタグ".data || containsL line ['#'] then
    .hashtagLine ((wsSplit line).filter (fun tok => startsWithL tok ['#']))
  else .plain line

/-- `line.startswith(('1.', '2.', '3.', '-', '・'))`. -/
def isBulletStart (line : List Char) : Bool :=
  startsWithL line "1.".data || startsWithL line "2.".data ||
    startsWithL line "3.".data || startsWithL line "-".data ||
    startsWithL line "・".data

/-- The state update each branch of `_parse_script_response` performs. -/
def applyAction (st : ParseState) : LineAction → ParseState
  | .skip => st
  | .hookLine v =>
    { sec := .hook
      script :=
        match v with
        | some h => { st.script with hook := ⟨h⟩ }
        | none => st.script }
  | .bulletsHeader => { st with sec := .bullets }
  | .twistLine v =>
    { sec := .twist
      script :=
        match v with
        | some h => { st.script with twist := ⟨h⟩ }
        | none => st.script }
  | .ctaLine v =>
    { sec := .cta
      script :=
        match v with
        | some h => { st.script with cta := ⟨h⟩ }
        | none => st.script }
  | .hashtagLine toks =>
    let newTags : List String := toks.map (fun tok => (⟨stripL tok⟩ : String))
    { st with script :=
        { st.script with hashtags := st.script.hashtags ++ newTags } }
  | .plain line =>
    if st.sec == .bullets && isBulletStart line then
      let newBullet : String := ⟨bulletText line⟩
      { st with script :=
          { st.script with bullets := st.script.bullets ++ [newBullet] } }
    else if st.sec == .hook && st.script.hook == "" then
      { st with script := { st.script with hook := ⟨line⟩ } }
    else if st.sec == .twist && st.script.twist == "" then
      { st with script := { st.script with twist := ⟨line⟩ } }
    else if st.sec == .cta && st.script.cta == "" then
      { st with script := { st.script with cta := ⟨line⟩ } }
    else st

/-- One iteration of the `for line in lines` loop of
`_parse_script_response`, including the `line.strip()` and the
`if not line: continue` guard. -/
def parseLine (st : ParseState) (raw : List Char) : ParseState :=
  applyAction st (classifyLine (stripL raw))

/-- The initial script dictionary of `_parse_script_response`: every field
present, text fields empty, `style` copied from the template,
`estimated_duration` 25. -/
def initScript (t : CampaignTemplate) : Script :=
  { hook := ""
    bullets := []
    twist := ""
    cta := ""
    hashtags := []
    style := t.style_primary
    estimated_duration := 25 }

/-- `GeminiContentGenerator._parse_script_response`: split the stripped
response on newlines and fold the section-header matcher over the lines.
Total: no input raises. -/
def parseScriptResponse (response : String) (t : CampaignTemplate) :
    Script :=
  let lines := splitOnCharL '\n' (stripL response.data)
  (lines.foldl parseLine { sec := .start, script := initScript t }).script

theorem applyAction_style (st : ParseState) (a : LineAction) :
    (applyAction st a).script.style = st.script.style := by
  cases a with
  | skip => rfl
  | hookLine v => cases v <;> rfl
  | bulletsHeader => rfl
  | twistLine v => cases v <;> rfl
  | ctaLine v => cases v <;> rfl
  | hashtagLine toks => rfl
  | plain line =>
    simp only [applyAction]
    split_ifs <;> rfl

theorem applyAction_duration (st : ParseState) (a : LineAction) :
    (applyAction st a).script.estimated_duration =
      st.script.estimated_duration := by
  cases a with
  | skip => rfl
  | hookLine v => cases v <;> rfl
  | bulletsHeader => rfl
  | twistLine v => cases v <;> rfl
  | ctaLine v => cases v <;> rfl
  | hashtagLine toks => rfl
  | plain line =>
    simp only [applyAction]
    split_ifs <;> rfl

theorem parseLine_style (st : ParseState) (raw : List Char) :
    (parseLine st raw).script.style = st.script.style :=
  applyAction_style st _

theorem parseLine_duration (st : ParseState) (raw : List Char) :
    (parseLine st raw).script.estimated_duration =
      st.script.estimated_duration :=
  applyAction_duration st _

theorem classifyLine_hashtagLine (line : List Char)
    (toks : List (List Char)) (h : classifyLine line = .hashtagLine toks) :
    toks = (wsSplit line).filter (fun tok => startsWithL tok ['#']) := by
  unfold classifyLine at h
  split_ifs at h <;> simp_all

theorem parseLine_hashtags (st : ParseState) (raw : List Char)
    (h : ∀ tag ∈ st.script.hashtags, startsWithL tag.data ['#'] = true) :
    ∀ tag ∈ (parseLine st raw).script.hashtags,
      startsWithL tag.data ['#'] = true := by
  unfold parseLine
  cases hc : classifyLine (stripL raw) with
  | skip => exact h
  | hookLine v => cases v <;> exact h
  | bulletsHeader => exact h
  | twistLine v => cases v <;> exact h
  | ctaLine v => cases v <;> exact h
  | hashtagLine toks =>
    have htoks := classifyLine_hashtagLine _ _ hc
    intro tag htag
    simp only [applyAction] at htag
    rcases List.mem_append.mp htag with hmem | hmem
    · exact h tag hmem
    · obtain ⟨tok, htok, rfl⟩ := List.mem_map.mp hmem
      rw [htoks] at htok
      obtain ⟨htokmem, hstart⟩ := List.mem_filter.mp htok
      have hns : ∀ c ∈ tok, pyIsSpace c = false :=
        wsSplitAux_no_space (stripL raw) [] (by simp) tok htokmem
      show startsWithL (stripL tok) ['#'] = true
      rw [stripL_of_no_space tok hns]
      exact hstart
  | plain line =>
    simp only [applyAction]
    split_ifs <;> exact h

theorem foldl_parseLine_style (lines : List (List Char)) (st : ParseState) :
    (lines.foldl parseLine st).script.style = st.script.style := by
  induction lines generalizing st with
  | nil => rfl
  | cons l ls ih => rw [List.foldl_cons, ih, parseLine_style]

theorem foldl_parseLine_duration (lines : List (List Char))
    (st : ParseState) :
    (lines.foldl parseLine st).script.estimated_duration =
      st.script.estimated_duration := by
  induction lines generalizing st with
  | nil => rfl
  | cons l ls ih => rw [List.foldl_cons, ih, parseLine_duration]

theorem foldl_parseLine_hashtags (lines : List (List Char))
    (st : ParseState)
    (h : ∀ tag ∈ st.script.hashtags, startsWithL tag.data ['#'] = true) :
    ∀ tag ∈ (lines.foldl parseLine st).script.hashtags,
      startsWithL tag.data ['#'] = true := by
  induction lines generalizing st with
  | nil => exact h
  | cons l ls ih =>
    rw [List.foldl_cons]
    exact ih (parseLine st l) (parseLine_hashtags st l h)

/-- **C9.** For every free-text backend response and every template, the
script-response parser returns (without error: it is a total function) a
structure with all seven fields, in which `style` equals the template's
primary style, `estimated_duration` its fixed default, every hashtag
starts with the `#` marker, and a non-empty line matching none of the
section markers while no section is active leaves the parse state
unchanged (unrecognized lines are ignored; fields may stay empty). -/
theorem parseScriptResponse_bestEffort :
    (∀ (response : String) (t : CampaignTemplate),
      (parseScriptResponse response t).style = t.style_primary ∧
      (parseScriptResponse response t).estimated_duration = 25 ∧
      (∀ tag ∈ (parseScriptResponse response t).hashtags,
        startsWithL tag.data ['#'] = true)) ∧
    (∀ (st : ParseState) (raw : List Char),
      (stripL raw).isEmpty = false →
      (containsL (stripL raw) "フック".data ||
        containsL (lowerL (stripL raw)) "hook".data) = false →
      (containsL (stripL raw) "メインコンテンツ".data ||
        containsL (stripL raw) "ポイント".data) = false →
      (containsL (stripL raw) "ツイスト".data ||
        containsL (lowerL (stripL raw)) "twist".data) = false →
      (containsL (stripL raw) "CTA".data ||
        containsL (stripL raw) "行動喚起".data) = false →
      (containsL (stripL raw) "ハッシュタグ".data ||
        containsL (stripL raw) ['#']) = false →
      st.sec = .start →
      parseLine st raw = st) := by
  constructor
  · intro response t
    refine ⟨?_, ?_, ?_⟩
    · exact foldl_parseLine_style _ _
    · exact foldl_parseLine_duration _ _
    · exact foldl_parseLine_hashtags _ _ (by simp [initScript])
  · intro st raw h0 h1 h2 h3 h4 h5 hsec
    have hc : classifyLine (stripL raw) = .plain (stripL raw) := by
      simp [classifyLine, h0, h1, h2, h3, h4, h5]
    unfold parseLine
    rw [hc]
    simp [applyAction, hsec]

/-- Witness for C9: parsing a concrete two-line response against the
fallback `tech` template, plus the unrecognized-line clause at a concrete
garbage line. -/
theorem parseScriptResponse_bestEffort_witness :
    ((parseScriptResponse "フック: こんにちは\nハッシュタグ: #tech"
        (defaultTemplates[2])).style = "tech" ∧
      ∀ tag ∈ (parseScriptResponse "フック: こんにちは\nハッシュタグ: #tech"
        (defaultTemplates[2])).hashtags, startsWithL tag.data ['#'] = true) ∧
    parseLine { sec := .start, script := initScript (defaultTemplates[2]) }
      "garbage".data =
      { sec := .start, script := initScript (defaultTemplates[2]) } := by
  constructor
  · refine ⟨?_, ?_⟩
    · exact (parseScriptResponse_bestEffort.1
        "フック: こんにちは\nハッシュタグ: #tech" (defaultTemplates[2])).1
    · exact (parseScriptResponse_bestEffort.1
        "フック: こんにちは\nハッシュタグ: #tech" (defaultTemplates[2])).2.2
  · exact parseScriptResponse_bestEffort.2 _ _ (by decide) (by decide)
      (by decide) (by decide) (by decide) (by decide) rfl

/-! ## Mock script fallback
(`GeminiContentGenerator._generate_mock_script` / `generate_script`) -/

/-- The `mock_hooks` candidate pool (keyed by the template's display
name). -/
def mockHooks (t : CampaignTemplate) : List String :=
  [ "今話題の" ++ t.display ++ "について知ってる？"
  , "これは知らないと損する" ++ t.display ++ "の話"
  , "みんな！" ++ t.display ++ "で大変なことが起きてる！" ]

/-- The `mock_bullets` candidate pool; the first entry interpolates
`template.keywords[0]`. -/
def mockBullets (kw0 : String) : List String :=
  [ kw0 ++ "の最新情報をチェック"
  , "実はこんなメリットがあるんです"
  , "みんなが知らない裏技を公開" ]

/-- The `mock_twists` candidate pool. -/
def mockTwists : List String :=
  [ "でも実は、もっとすごいことがあるんです！"
  , "実際に試してみたら、予想を超える結果が..."
  , "最後にとっておきの情報を教えます" ]

/-- The `mock_ctas` candidate pool. -/
def mockCtas : List String :=
  [ "あなたはどう思う？コメントで教えて！"
  , "続きが気になる人はフォローしてね"
  , "この情報、役に立った人はいいね！" ]

/-- `random.choice(l)`, with the random draw made explicit as an index. -/
def pyChoice (l : List String) (i : Nat) : String :=
  l.getD (i % l.length) ""

/-- `random.sample(l, 3)` on a 3-element pool: some permutation of the
pool, with the random draw made explicit as an index into the permutation
list. -/
def pySample3 (l : List String) (p : Nat) : List String :=
  l.permutations.getD (p % l.permutations.length) l

/-- `GeminiContentGenerator._generate_mock_script`.  Evaluating
`template.keywords[0]` raises `IndexError` when the keyword list is empty
(`none`); otherwise every field is filled from the fixed pools, with
hashtags `#`-prefixed from the first three keywords and
`random.randint(20, 35)` as the duration. -/
def generateMockScript (t : CampaignTemplate)
    (hi pidx ti ci dur : Nat) : Option Script :=
  match t.keywords with
  | [] => none
  | kw0 :: _ =>
    some
      { hook := pyChoice (mockHooks t) hi
        bullets := pySample3 (mockBullets kw0) pidx
        twist := pyChoice mockTwists ti
        cta := pyChoice mockCtas ci
        hashtags := (t.keywords.take 3).map (fun k => "#" ++ k)
        style := t.style_primary
        estimated_duration := 20 + dur % 16 }

/-- `GeminiContentGenerator.generate_script`: with no configured backend
(`none`) the mock fallback is used directly; a configured backend either
fails (`.error`, falling back to the mock) or returns free text that is
parsed. -/
def generateScript (t : CampaignTemplate)
    (backend : Option (Except String String))
    (hi pidx ti ci dur : Nat) : Option Script :=
  match backend with
  | none => generateMockScript t hi pidx ti ci dur
  | some (.error _) => generateMockScript t hi pidx ti ci dur
  | some (.ok resp) => some (parseScriptResponse resp t)

theorem pyChoice_mem (l : List String) (i : Nat) (h : l ≠ []) :
    pyChoice l i ∈ l := by
  unfold pyChoice
  have hlt : i % l.length < l.length := Nat.mod_lt _ (List.length_pos.mpr h)
  rw [List.getD_eq_getElem?_getD, List.getElem?_eq_getElem hlt]
  exact List.getElem_mem hlt

theorem pySample3_perm (l : List String) (p : Nat) : (pySample3 l p).Perm l := by
  unfold pySample3
  have hne : l.permutations ≠ [] := by
    intro hc
    have : l ∈ l.permutations := List.mem_permutations.mpr (List.Perm.refl l)
    rw [hc] at this
    exact absurd this (List.not_mem_nil l)
  have hlt : p % l.permutations.length < l.permutations.length :=
    Nat.mod_lt _ (List.length_pos.mpr hne)
  rw [List.getD_eq_getElem?_getD, List.getElem?_eq_getElem hlt]
  exact List.mem_permutations.mp (List.getElem_mem hlt)

theorem append_ne_empty_of_left_ne_empty (a b : String) (h : a ≠ "") :
    a ++ b ≠ "" := by
  intro hc
  apply h
  have hdata := congrArg String.data hc
  rw [String.data_append] at hdata
  have ha : a.data = [] := (List.append_eq_nil.mp hdata).1
  cases a with
  | mk d =>
    simp only at ha
    subst ha
    rfl

theorem mockHooks_ne_empty (t : CampaignTemplate) :
    ∀ x ∈ mockHooks t, x ≠ "" := by
  intro x hx
  simp only [mockHooks, List.mem_cons, List.not_mem_nil, or_false] at hx
  rcases hx with rfl | rfl | rfl <;>
    exact append_ne_empty_of_left_ne_empty _ _
      (append_ne_empty_of_left_ne_empty _ _ (by decide))

/-- **C3 counterexample.** The claim quantifies over every template, but
for a template whose keyword list is empty the fallback path evaluates
`template.keywords[0]` and raises `IndexError` (modelled as `none`):
`generate_script` returns no script at all, let alone one with every
field populated. -/
theorem generateScript_empty_keywords_raises :
    generateScript
      { key := "k", display := "d", style_primary := "s",
        style_secondary := "s2", has_affiliate := false,
        keywords := [], sources_rss := [] } none 0 0 0 0 0 = none := rfl

/-- **C3 (amended).** For every template with a non-empty keyword list and
every content type, when no text-generation backend is configured or the
backend call fails, `generate_script` returns a script whose every field
is populated: a non-empty hook, exactly three bullets, a non-empty twist,
a non-empty CTA, and at least one hashtag, the hashtags being the
`#`-prefixed first three template keywords.  (The content type only
selects prompt text, which the fallback never uses, so it does not appear
in the fallback model.) -/
theorem generateScript_fallback_populated
    (t : CampaignTemplate) (backend : Option (Except String String))
    (hi pidx ti ci dur : Nat) (hkw : t.keywords ≠ [])
    (hb : backend = none ∨ ∃ e, backend = some (.error e)) :
    ∃ s, generateScript t backend hi pidx ti ci dur = some s ∧
      s.hook ≠ "" ∧ s.bullets.length = 3 ∧ s.twist ≠ "" ∧ s.cta ≠ "" ∧
      s.hashtags = (t.keywords.take 3).map (fun k => "#" ++ k) ∧
      s.hashtags ≠ [] := by
  have hmock : generateScript t backend hi pidx ti ci dur =
      generateMockScript t hi pidx ti ci dur := by
    rcases hb with rfl | ⟨e, rfl⟩ <;> rfl
  rw [hmock]
  obtain ⟨kw0, rest, hk⟩ : ∃ kw0 rest, t.keywords = kw0 :: rest := by
    cases hkeq : t.keywords with
    | nil => exact absurd hkeq hkw
    | cons a l => exact ⟨a, l, rfl⟩
  unfold generateMockScript
  rw [hk]
  refine ⟨_, rfl, ?_, ?_, ?_, ?_, ?_, ?_⟩
  · exact mockHooks_ne_empty t _ (pyChoice_mem _ hi (by simp [mockHooks]))
  · have hp := pySample3_perm (mockBullets kw0) pidx
    rw [hp.length_eq]
    rfl
  · have hall : ∀ x ∈ mockTwists, x ≠ "" := by decide
    exact hall _ (pyChoice_mem mockTwists ti (by decide))
  · have hall : ∀ x ∈ mockCtas, x ≠ "" := by decide
    exact hall _ (pyChoice_mem mockCtas ci (by decide))
  · rfl
  · simp

/-- Witness for C3 (amended): the fallback `tech` template with no
backend configured. -/
theorem generateScript_fallback_populated_witness :
    ∃ s, generateScript (defaultTemplates[2]) none 0 0 0 0 0 = some s ∧
      s.hook ≠ "" ∧ s.bullets.length = 3 ∧ s.twist ≠ "" ∧ s.cta ≠ "" ∧
      s.hashtags =
        ((defaultTemplates[2]).keywords.take 3).map (fun k => "#" ++ k) ∧
      s.hashtags ≠ [] :=
  generateScript_fallback_populated (defaultTemplates[2]) none 0 0 0 0 0
    (by decide) (Or.inl rfl)

/-! ## Social publishers
(`python_campaign_launcher/src/tasks/social_tasks.py` and
`python-campaign-launcher/app/services/social_poster.py`) -/

/-- Python truthiness of an optional credential string: `None` and `""`
are falsy. -/
def truthy (o : Option String) : Bool :=
  match o with
  | none => false
  | some s => !(s == "")

/-- The social-API credential fields of `Settings`
(`src/core/config.py`) consulted by `SocialMediaPublisher`. -/
structure SocialSettings where
  tiktok_client_key : Option String
  instagram_client_id : Option String
  youtube_client_id : Option String
  deriving Repr, DecidableEq

/-- The per-platform result dictionary returned by the
`SocialMediaPublisher.publish_to_*` methods: only the keys the source
can set. -/
structure PlatResult where
  status : String
  platform : Option String := none
  post_id : Option String := none
  url : Option String := none
  published_at : Option String := none
  error : Option String := none
  reason : Option String := none
  deriving Repr, DecidableEq

/-- `SocialMediaPublisher.publish_to_tiktok`.  The second component
records whether the guarded API block (the platform-client call site) was
entered at all: `false` means the call returned before any client use. -/
def publishToTiktok (s : SocialSettings) : PlatResult × Bool :=
  if truthy s.tiktok_client_key then
    ({ status := "success", platform := some "tiktok"
       post_id := some "mock_tiktok_id"
       url := some "https://tiktok.com/@user/video/mock_tiktok_id"
       published_at := some "2024-01-01T00:00:00Z" }, true)
  else
    ({ status := "skipped", reason := some "TikTok API not configured" },
      false)

/-- `SocialMediaPublisher.publish_to_instagram`. -/
def publishToInstagram (s : SocialSettings) : PlatResult × Bool :=
  if truthy s.instagram_client_id then
    ({ status := "success", platform := some "instagram"
       post_id := some "mock_instagram_id"
       url := some "https://instagram.com/p/mock_instagram_id"
       published_at := some "2024-01-01T00:00:00Z" }, true)
  else
    ({ status := "skipped", reason := some "Instagram API not configured" },
      false)

/-- `SocialMediaPublisher.publish_to_youtube`. -/
def publishToYoutube (s : SocialSettings) : PlatResult × Bool :=
  if truthy s.youtube_client_id then
    ({ status := "success", platform := some "youtube"
       post_id := some "mock_youtube_id"
       url := some "https://youtube.com/watch?v=mock_youtube_id"
       published_at := some "2024-01-01T00:00:00Z" }, true)
  else
    ({ status := "skipped", reason := some "YouTube API not configured" },
      false)

/-- Which credential the publisher checks for a platform name. -/
def platformConfigured (s : SocialSettings) (p : String) : Bool :=
  if p == "tiktok" then truthy s.tiktok_client_key
  else if p == "instagram" then truthy s.instagram_client_id
  else if p == "youtube" then truthy s.youtube_client_id
  else false

/-- The platform-name → publisher-method mapping, with the method's own
(async) body evaluated — i.e. what `await publisher.publish_to_<p>(...)`
yields.  This is about the `SocialMediaPublisher` methods themselves;
the synchronous task `publish_to_platforms` never awaits them (see
`publishOneSync`). -/
def publishDispatch (s : SocialSettings) (p : String) : PlatResult × Bool :=
  if p == "tiktok" then publishToTiktok s
  else if p == "instagram" then publishToInstagram s
  else if p == "youtube" then publishToYoutube s
  else ({ status := "error", error := some ("Unknown platform: " ++ p) },
    false)

/-- A value held by the `results` dictionary inside the synchronous task
`publish_to_platforms`: either a plain result dictionary, or — because
the task calls the `async def` publisher methods *without* `await` — an
un-awaited coroutine object (the method body is never executed). -/
inductive PyValue where
  | dict (r : PlatResult)
  | coroutine (method : String)
  deriving Repr, DecidableEq

/-- The body of one `publish_to_platforms` loop iteration after the
progress update: the `video_url` guard (`continue` with an error entry),
then the platform dispatch.  The dispatch expressions
`publisher.publish_to_tiktok(content_result, video_url)` etc. are not
awaited in the synchronous task, so they evaluate to coroutine objects
regardless of the credential settings. -/
def publishOneSync (videoUrl : Option String) (p : String) : PyValue :=
  match videoUrl with
  | none => .dict { status := "error", error := some "No video available" }
  | some _ =>
    if p == "tiktok" then .coroutine "publish_to_tiktok"
    else if p == "instagram" then .coroutine "publish_to_instagram"
    else if p == "youtube" then .coroutine "publish_to_youtube"
    else .dict { status := "error"
                 error := some ("Unknown platform: " ++ p) }

/-- Python `dict` lookup on an insertion-ordered association list. -/
def lookupDict {α : Type} : List (String × α) → String → Option α
  | [], _ => none
  | q :: rest, k => if q.1 == k then some q.2 else lookupDict rest k

/-- Python `dict` assignment `m[k] = v`: replace in place when the key
exists, append otherwise. -/
def dictInsert {α : Type} (m : List (String × α)) (k : String) (v : α) :
    List (String × α) :=
  if m.any (fun q => q.1 == k) then
    m.map (fun q => if q.1 == k then (k, v) else q)
  else m ++ [(k, v)]

/-- `int((i / total_platforms) * 100)`: raises `ZeroDivisionError`
(`none`) when `total_platforms` is zero. -/
def progressAt (i total : Nat) : Option Nat :=
  if total == 0 then none else some ((i * 100) / total)

/-- The `for i, platform in enumerate(platforms)` loop of
`publish_to_platforms`: progress update (fallible: division by the fixed
platform count), then one result entry per platform. -/
def publishLoop (videoUrl : Option String) (total : Nat) :
    List String → Nat → List (String × PyValue) →
      Except String (List (String × PyValue))
  | [], _, acc => .ok acc
  | p :: rest, i, acc =>
    match progressAt i total with
    | none => .error "ZeroDivisionError: division by zero"
    | some _ =>
      publishLoop videoUrl total rest (i + 1)
        (dictInsert acc p (publishOneSync videoUrl p))

/-- The aggregate dictionary `publish_to_platforms` returns. -/
structure PublishAggregate where
  campaign_id : String
  platform_results : List (String × PyValue)
  total_platforms : Nat
  successful_publishes : Nat
  deriving Repr, DecidableEq

/-- The success count
`sum(1 for r in results.values() if r.get('status') == 'success')`,
evaluated left to right: `r.get('status')` on a coroutine object raises
`AttributeError`. -/
def countSuccesses : List (String × PyValue) → Except String Nat
  | [] => .ok 0
  | q :: rest =>
    match q.2 with
    | .coroutine _ =>
      .error "AttributeError: 'coroutine' object has no attribute 'get'"
    | .dict r =>
      match countSuccesses rest with
      | .error e => .error e
      | .ok n => .ok (if r.status == "success" then n + 1 else n)

/-- `publish_to_platforms` (the synchronous Celery task body): run the
per-platform loop, then assemble the aggregate with the success count.
The `SocialSettings` parameter mirrors the ambient configuration the
constructed `SocialMediaPublisher` would consult, but since the task
never awaits the publisher methods it is never actually read. -/
def publishToPlatforms (s : SocialSettings) (campaignId : String)
    (videoUrl : Option String) (platforms : List String) :
    Except String PublishAggregate :=
  match publishLoop videoUrl platforms.length platforms 0 [] with
  | .error e => .error e
  | .ok results =>
    match countSuccesses results with
    | .error e => .error e
    | .ok n =>
      .ok { campaign_id := campaignId
            platform_results := results
            total_platforms := platforms.length
            successful_publishes := n }

theorem lookupDict_replace {α : Type} (m : List (String × α)) (k : String)
    (v : α) (h : m.any (fun q => q.1 == k) = true) :
    lookupDict (m.map (fun q => if q.1 == k then (k, v) else q)) k =
      some v := by
  induction m with
  | nil => simp at h
  | cons q rest ih =>
    by_cases hq : q.1 = k
    · simp [lookupDict, hq]
    · have hfq : (q.1 == k) = false := by simp [hq]
      simp only [List.map_cons, hfq, if_false, lookupDict, Bool.false_eq_true]
      exact ih (by simpa [hfq] using h)

theorem lookupDict_append_single {α : Type} (m : List (String × α))
    (k : String) (v : α) (h : m.any (fun q => q.1 == k) = false) :
    lookupDict (m ++ [(k, v)]) k = some v := by
  induction m with
  | nil => simp [lookupDict]
  | cons q rest ih =>
    simp only [List.any_cons, Bool.or_eq_false_iff] at h
    simp only [List.cons_append, lookupDict, h.1, Bool.false_eq_true,
      if_false]
    exact ih h.2

theorem lookupDict_dictInsert_self {α : Type} (m : List (String × α))
    (k : String) (v : α) : lookupDict (dictInsert m k v) k = some v := by
  unfold dictInsert
  cases h : m.any (fun q => q.1 == k) with
  | true => simpa [h] using lookupDict_replace m k v h
  | false => simpa [h] using lookupDict_append_single m k v h

theorem lookupDict_map_replace_other {α : Type} (m : List (String × α))
    (k : String) (v : α) (p : String) (hne : p ≠ k) :
    lookupDict (m.map (fun q => if q.1 == k then (k, v) else q)) p =
      lookupDict m p := by
  have hkp : (k == p) = false := by
    simp only [beq_eq_false_iff_ne, ne_eq]
    exact fun h => hne h.symm
  induction m with
  | nil => rfl
  | cons q rest ih =>
    cases hq : (q.1 == k) with
    | true =>
      have hq1 : q.1 = k := by simpa using hq
      have hqp : (q.1 == p) = false := by rw [hq1]; exact hkp
      simp only [List.map_cons, hq, if_true, lookupDict, hkp, hqp,
        Bool.false_eq_true, if_false]
      exact ih
    | false =>
      simp only [List.map_cons, hq, Bool.false_eq_true, if_false,
        lookupDict]
      rw [ih]

theorem lookupDict_append_single_other {α : Type} (m : List (String × α))
    (k : String) (v : α) (p : String) (hne : p ≠ k) :
    lookupDict (m ++ [(k, v)]) p = lookupDict m p := by
  have hkp : (k == p) = false := by
    simp only [beq_eq_false_iff_ne, ne_eq]
    exact fun h => hne h.symm
  induction m with
  | nil => simp [lookupDict, hkp]
  | cons q rest ih =>
    simp only [List.cons_append, lookupDict]
    rw [List.append_eq, ih]

theorem lookupDict_dictInsert_other {α : Type} (m : List (String × α))
    (k : String) (v : α) (p : String) (hne : p ≠ k) :
    lookupDict (dictInsert m k v) p = lookupDict m p := by
  unfold dictInsert
  split_ifs with hany
  · exact lookupDict_map_replace_other m k v p hne
  · exact lookupDict_append_single_other m k v p hne

/-- **C8 (code bug).** The spec intends `publish_to_platforms` to return
an aggregate with per-platform detail and a success count, but the
synchronous task never awaits the async publisher methods: with a video
URL and any recognised platform listed, the `results` dictionary holds a
coroutine object and the `successful_publishes` generator raises
`AttributeError` on `r.get('status')`, so the task raises (Celery
`FAILURE`) instead of returning an aggregate. -/
theorem publishToPlatforms_nonempty_raises :
    publishToPlatforms ⟨some "key", none, none⟩ "c-8"
        (some "http://v.mp4") ["tiktok"] =
      .error "AttributeError: 'coroutine' object has no attribute 'get'"
    := rfl

/-- **C10.** Calling `publish_to_platforms` with an empty platform list
returns normally — the fallible progress ratio `i / total_platforms` is
computed only inside the loop over platforms, which does not run (and no
un-awaited publisher call is reached either) — with
`total_platforms = 0`, an empty `platform_results` mapping and
`successful_publishes = 0`. -/
theorem publishToPlatforms_empty (s : SocialSettings)
    (campaignId : String) (videoUrl : Option String) :
    publishToPlatforms s campaignId videoUrl [] =
      .ok { campaign_id := campaignId, platform_results := []
            total_platforms := 0, successful_publishes := 0 } := rfl

/-- Which client objects `SocialPosterService.setup_api_clients`
constructed (`TikTokAPIClient() if settings.tiktok_client_id else None`,
etc., from `python-campaign-launcher/app/services/social_poster.py`). -/
structure PosterClients where
  tiktok_client : Bool
  instagram_client : Bool
  youtube_client : Bool
  deriving Repr, DecidableEq

/-- The `SocialPost` fields `schedule_post` sets
(`python-campaign-launcher/app/models.py`). -/
structure SocialPostRec where
  platform : String
  caption : String
  hashtags : List String
  scheduled_time : Nat
  posted : Bool
  post_id : Option String
  deriving Repr, DecidableEq

/-- `SocialPosterService.schedule_post`: builds the post, dispatches to a
configured client, and otherwise falls into the
`# Simulate successful posting for demo` branch.  The scheduled time and
the random post-id draw are explicit parameters; `none` is the
`except`-path return, never taken in this body. -/
def schedulePost (clients : PosterClients)
    (platform videoUrl caption : String) (hashtags : List String)
    (schedTime : Nat) (rand : Nat) : Option SocialPostRec :=
  let basePost : SocialPostRec :=
    { platform := platform
      caption := caption ++ "\n\n" ++ String.intercalate " " hashtags
      hashtags := hashtags
      scheduled_time := schedTime
      posted := false
      post_id := none }
  if platform == "tiktok" && clients.tiktok_client then
    some { basePost with
      post_id := some ("tiktok_" ++ toString (100000 + rand % 900000))
      posted := true }
  else if platform == "instagram" && clients.instagram_client then
    some { basePost with
      post_id := some ("instagram_" ++ toString (100000 + rand % 900000))
      posted := true }
  else if platform == "youtube" && clients.youtube_client then
    some { basePost with
      post_id := some ("youtube_" ++ toString (100000 + rand % 900000))
      posted := true }
  else
    some { basePost with
      post_id :=
        some ("demo_" ++ platform ++ "_" ++ toString (1000 + rand % 9000))
      posted := true }

/-- **C2 counterexample.** The claim says a publish call for an
unconfigured platform returns `skipped` and never reports success, but
`SocialPosterService.schedule_post` with no client configured falls into
the demo branch and returns a post with `posted = true` and a fabricated
`demo_…` post id — a reported success for an unconfigured platform. -/
theorem schedulePost_unconfigured_reports_success :
    schedulePost ⟨false, false, false⟩ "tiktok" "http://v.mp4" "cap" [] 0
        0 =
      some { platform := "tiktok", caption := "cap\n\n", hashtags := []
             scheduled_time := 0, posted := true
             post_id := some "demo_tiktok_1000" } := rfl

/-- **C2 (amended).** In `SocialMediaPublisher` (the task-side publisher),
a publish call for a platform whose credentials are not configured
returns status `"skipped"` without entering the client-call block and
never reports success; however `SocialPosterService.schedule_post` (the
service-side poster) simulates a *successful* post when no client is
configured, so the system as a whole can report success for an
unconfigured platform. -/
theorem publisher_unconfigured_skips (s : SocialSettings) (p : String)
    (hp : p = "tiktok" ∨ p = "instagram" ∨ p = "youtube")
    (hcfg : platformConfigured s p = false) :
    (publishDispatch s p).1.status = "skipped" ∧
    (publishDispatch s p).2 = false ∧
    (publishDispatch s p).1.status ≠ "success" := by
  rcases hp with rfl | rfl | rfl
  · have h : truthy s.tiktok_client_key = false := by
      simpa [platformConfigured] using hcfg
    simp [publishDispatch, publishToTiktok, h]
  · have h : truthy s.instagram_client_id = false := by
      simpa [platformConfigured] using hcfg
    simp [publishDispatch, publishToInstagram, h]
  · have h : truthy s.youtube_client_id = false := by
      simpa [platformConfigured] using hcfg
    simp [publishDispatch, publishToYoutube, h]

/-- Witness for C2 (amended): TikTok with all credentials absent. -/
theorem publisher_unconfigured_skips_witness :
    (publishDispatch ⟨none, none, none⟩ "tiktok").1.status = "skipped" ∧
    (publishDispatch ⟨none, none, none⟩ "tiktok").2 = false ∧
    (publishDispatch ⟨none, none, none⟩ "tiktok").1.status ≠ "success" :=
  publisher_unconfigured_skips ⟨none, none, none⟩ "tiktok"
    (Or.inl rfl) (by decide)

/-! ## Campaign workflow failure handling
(`python-campaign-launcher/app/services/campaign_manager.py` and
`app/database.py`) -/

/-- The `campaigns` table row (`CampaignDB` in `app/database.py`).  The
table has `status` and timestamps but **no error-message column** (only
the separate `video_tasks` table has one); JSON columns are modelled as
opaque strings. -/
structure CampaignRow where
  id : String
  name : String
  description : String
  campaign_type : String
  status : String
  video_content : String
  config : String
  posts : List SocialPostRec
  video_urls : List String
  analytics : Option String
  created_at : Nat
  updated_at : Nat
  deriving Repr, DecidableEq

/-- `CampaignManager.update_campaign_status` applied to the looked-up
row: it writes only `status` and `updated_at`. -/
def updateCampaignStatus (c : CampaignRow) (status : String) (now : Nat) :
    CampaignRow :=
  { c with status := status, updated_at := now }

/-- `CampaignManager.process_campaign` on an existing campaign row: set
`running`, run video generation (which writes `video_urls` on success),
then post creation (skipped when no videos; writes `posts` on success),
then set `completed`; any stage exception is caught and answered only by
`update_campaign_status(..., FAILED)` — the exception text is logged,
not stored. -/
def processCampaign (c : CampaignRow) (now : Nat)
    (videoRes : Except String (List String))
    (postsRes : List String → Except String (List SocialPostRec)) :
    CampaignRow :=
  let c1 := updateCampaignStatus c "running" now
  match videoRes with
  | .error _ => updateCampaignStatus c1 "failed" now
  | .ok urls =>
    let c2 := { c1 with video_urls := urls }
    if urls.isEmpty then updateCampaignStatus c2 "completed" now
    else
      match postsRes urls with
      | .error _ => updateCampaignStatus c2 "failed" now
      | .ok posts =>
        updateCampaignStatus { c2 with posts := posts } "completed" now

/-- A concrete campaign row used by the C1 counterexample and witness. -/
def sampleRow : CampaignRow :=
  { id := "c-1", name := "n", description := "d"
    campaign_type := "ai_product_reaction", status := "draft"
    video_content := "{}", config := "{}", posts := [], video_urls := []
    analytics := none, created_at := 0, updated_at := 0 }

/-- **C1 counterexample.** The claim requires the stored campaign record
to carry a non-null error message describing the triggering exception;
but the `campaigns` table has no error-message column and the exception
handler calls only `update_campaign_status`, so two workflow runs failing
with *different* exceptions leave *identical* stored rows — no field of
the record describes (or even depends on) the triggering cause. -/
theorem processCampaign_failure_discards_cause :
    processCampaign sampleRow 5
        (.error "ValueError: video generation failed")
        (fun _ => .ok []) =
      processCampaign sampleRow 5
        (.error "RuntimeError: storage unavailable")
        (fun _ => .ok []) ∧
    (processCampaign sampleRow 5
        (.error "ValueError: video generation failed")
        (fun _ => .ok [])).status = "failed" := ⟨rfl, rfl⟩

/-- **C1 (amended).** For every campaign whose workflow processing raises
an unrecovered error (in the video-generation stage, or in the
post-creation stage reached with a non-empty video list), the stored
campaign record ends with terminal status `"failed"` and a refreshed
`updated_at` — but no error message is recorded: the campaign table has
no error-message field, and the failure handler writes nothing that
depends on the exception. -/
theorem processCampaign_unrecovered_error_fails
    (c : CampaignRow) (now : Nat) (msg : String)
    (videoRes : Except String (List String))
    (postsRes : List String → Except String (List SocialPostRec))
    (hfail : videoRes = .error msg ∨
      ∃ urls, videoRes = .ok urls ∧ urls ≠ [] ∧
        postsRes urls = .error msg) :
    (processCampaign c now videoRes postsRes).status = "failed" ∧
    (processCampaign c now videoRes postsRes).updated_at = now ∧
    (processCampaign c now videoRes postsRes).id = c.id ∧
    (processCampaign c now videoRes postsRes).posts = c.posts ∧
    (∀ msg2, processCampaign c now videoRes postsRes =
      processCampaign c now
        (match videoRes with
          | .error _ => .error msg2
          | .ok urls => .ok urls)
        (fun urls =>
          match postsRes urls with
          | .error _ => .error msg2
          | .ok posts => .ok posts)) := by
  rcases hfail with rfl | ⟨urls, rfl, hne, hurls⟩
  · exact ⟨rfl, rfl, rfl, rfl, fun msg2 => rfl⟩
  · have hempty : urls.isEmpty = false := by
      cases urls with
      | nil => exact absurd rfl hne
      | cons a l => rfl
    refine ⟨?_, ?_, ?_, ?_, ?_⟩ <;>
      simp [processCampaign, updateCampaignStatus, hempty, hurls]

/-- Witness for C1 (amended): a concrete failing video stage. -/
theorem processCampaign_unrecovered_error_fails_witness :
    (processCampaign sampleRow 5 (.error "boom")
        (fun _ => .ok [])).status = "failed" ∧
    (processCampaign sampleRow 5 (.error "boom")
        (fun _ => .ok [])).updated_at = 5 :=
  ⟨(processCampaign_unrecovered_error_fails sampleRow 5 "boom"
      (.error "boom") (fun _ => .ok []) (Or.inl rfl)).1,
    (processCampaign_unrecovered_error_fails sampleRow 5 "boom"
      (.error "boom") (fun _ => .ok []) (Or.inl rfl)).2.1⟩

/-! ## Engagement queue processor
(`python-campaign-launcher/app/workers/engagement_worker.py`)

`process_engagement_queue` is declared as a plain `def` whose body
contains `result = await social_poster.engage_with_content(...)`
(line 29).  `await` outside an `async def` is a Python `SyntaxError`:
the module cannot be imported and the processor can never run, so the
selection and marking behavior the spec describes (claims C5 and C6)
has no executable counterpart in the source and is not embedded here;
those claims are reported as code bugs. -/

/-! ## Regenerate endpoint
(`python_campaign_launcher/src/main.py` and `src/models/campaign.py`) -/

/-- `VideoGenerationRequest` from `src/models/campaign.py`. -/
structure VideoGenerationRequest where
  script : String
  style : String
  voice_language : String := "ja"
  duration : Option Nat := some 30
  resolution : String := "1080x1920"
  background_music : Bool := true
  deriving Repr, DecidableEq

/-- `CampaignConfig` from `src/models/campaign.py`. -/
structure CampaignConfig where
  name : String
  template_key : String
  platforms : List String
  content_type : String
  schedule : Option String := none
  daily_limit : Nat := 5
  video_config : VideoGenerationRequest
  tags : List String := []
  enabled : Bool := true
  deriving Repr, DecidableEq

/-- `CampaignStatus` from `src/models/campaign.py`. -/
inductive CStatus where
  | pending
  | processing
  | completed
  | failed
  | scheduled
  deriving Repr, DecidableEq

/-- `Campaign` from `src/models/campaign.py` (the richer aggregate, with
`error_message`, `generated_content` and `published_urls`). -/
structure CampaignAgg where
  id : String
  config : CampaignConfig
  status : CStatus
  created_at : Nat
  updated_at : Nat
  error_message : Option String := none
  generated_content : Option String := none
  published_urls : List (String × String) := []
  analytics : List (String × String) := []
  deriving Repr, DecidableEq

/-- The response body of `POST /campaigns/{id}/generate`. -/
structure RegenerateResponse where
  campaign_id : String
  task_id : String
  status : String
  deriving Repr, DecidableEq

/-- `regenerate_campaign_content` in `src/main.py`: 404 when the id is
absent from the in-memory `campaigns_db`; otherwise enqueue the content
task and assign only `campaign.status = PROCESSING` and
`campaign.updated_at = now` before storing the campaign back. -/
def regenerateCampaignContent (db : List (String × CampaignAgg))
    (cid : String) (now : Nat) (taskId : String) :
    Except String (List (String × CampaignAgg) × RegenerateResponse) :=
  match lookupDict db cid with
  | none => .error "Campaign not found"
  | some c =>
    let c2 := { c with status := CStatus.processing, updated_at := now }
    .ok (dictInsert db cid c2,
      { campaign_id := cid, task_id := taskId, status := "processing" })

/-- **C7.** For every existing campaign, a regenerate request re-enters
`processing` and modifies only the campaign's `status` and `updated_at`:
`config`, `created_at`, `error_message`, `generated_content`,
`published_urls` and `analytics` are all carried over unchanged — in
particular prior `publishedUrls` entries are not cleared, so repeated
regenerations accumulate publish results — and no other campaign in the
store is touched. -/
theorem regenerate_frame (db : List (String × CampaignAgg)) (cid : String)
    (now : Nat) (taskId : String) (c : CampaignAgg)
    (hfound : lookupDict db cid = some c) :
    ∃ db2 resp,
      regenerateCampaignContent db cid now taskId = .ok (db2, resp) ∧
      resp.status = "processing" ∧
      lookupDict db2 cid = some
        { c with status := CStatus.processing, updated_at := now } ∧
      (∀ c2, lookupDict db2 cid = some c2 →
        c2.status = CStatus.processing ∧ c2.updated_at = now ∧
        c2.id = c.id ∧ c2.config = c.config ∧
        c2.created_at = c.created_at ∧
        c2.error_message = c.error_message ∧
        c2.generated_content = c.generated_content ∧
        c2.published_urls = c.published_urls ∧
        c2.analytics = c.analytics) ∧
      (∀ other, other ≠ cid →
        lookupDict db2 other = lookupDict db other) := by
  refine ⟨dictInsert db cid
      { c with status := CStatus.processing, updated_at := now },
    { campaign_id := cid, task_id := taskId, status := "processing" },
    ?_, rfl, ?_, ?_, ?_⟩
  · unfold regenerateCampaignContent
    rw [hfound]
  · exact lookupDict_dictInsert_self db cid _
  · intro c2 hc2
    rw [lookupDict_dictInsert_self db cid _] at hc2
    cases hc2
    exact ⟨rfl, rfl, rfl, rfl, rfl, rfl, rfl, rfl, rfl⟩
  · intro other hother
    exact lookupDict_dictInsert_other db cid _ other hother

/-- A concrete campaign aggregate for the C7 witness, carrying a
previously published URL. -/
def sampleAgg : CampaignAgg :=
  { id := "c-7"
    config :=
      { name := "n", template_key := "tech", platforms := ["tiktok"]
        content_type := "ai_product_reaction"
        video_config := { script := "", style := "kawaii" } }
    status := CStatus.completed
    created_at := 1
    updated_at := 2
    published_urls := [("tiktok", "https://tiktok.com/@user/video/1")] }

/-- Witness for C7: regenerating a completed campaign with one published
URL keeps that URL. -/
theorem regenerate_frame_witness :
    ∃ db2 resp,
      regenerateCampaignContent [("c-7", sampleAgg)] "c-7" 9 "task-1" =
        .ok (db2, resp) ∧
      resp.status = "processing" ∧
      lookupDict db2 "c-7" = some
        { sampleAgg with status := CStatus.processing
                         updated_at := 9 } ∧
      (∀ c2, lookupDict db2 "c-7" = some c2 →
        c2.status = CStatus.processing ∧ c2.updated_at = 9 ∧
        c2.id = sampleAgg.id ∧ c2.config = sampleAgg.config ∧
        c2.created_at = sampleAgg.created_at ∧
        c2.error_message = sampleAgg.error_message ∧
        c2.generated_content = sampleAgg.generated_content ∧
        c2.published_urls = sampleAgg.published_urls ∧
        c2.analytics = sampleAgg.analytics) ∧
      (∀ other, other ≠ "c-7" →
        lookupDict db2 other = lookupDict [("c-7", sampleAgg)] other) :=
  regenerate_frame [("c-7", sampleAgg)] "c-7" 9 "task-1" sampleAgg rfl

end CampaignLauncher
